import Mathlib

/-!
Verification of the upload and credential-handling logic of the youtube
uploader (src/youtube_uploader.py, src/youtube_cli.py), shallowly embedded
in Lean.  The external Google client library is modelled as an opaque
source of chunk-round-trip outcomes (`ChunkEvent`), and the filesystem and
OAuth side effects are modelled by explicit state passing and event traces.
-/

namespace YoutubeUploader

/-- JSON-like values appearing in metadata bodies and result dictionaries.
`null` models Python `None`. -/
inductive MVal where
  | null : MVal
  | str (s : String) : MVal
  | bool (b : Bool) : MVal
  | strList (l : List String) : MVal
deriving DecidableEq

/-- One outcome of a call to `insert_request.next_chunk()` in
`resumable_upload`: a partial-progress return (`response` is None), a
terminal response dictionary, an `HttpError` (carrying `resp.status`,
`content`, and its Python `str()` rendering), or any other exception
(carrying its `str()` rendering). -/
inductive ChunkEvent where
  | progress : ChunkEvent
  | final (resp : List (String × String)) : ChunkEvent
  | httpErr (status : Nat) (content : String) (strE : String) : ChunkEvent
  | exn (msg : String) : ChunkEvent
deriving DecidableEq

/-- Outcome of running the `while response is None` loop of
`resumable_upload` against a finite trace of chunk outcomes.
`result = none` means the trace was exhausted before the loop returned
(the loop would call `next_chunk` again).  `sleeps` records the
`time.sleep` durations performed, in order; `calls` counts the
`next_chunk` invocations (network round-trips) consumed. -/
structure RunOut where
  result : Option (List (String × MVal))
  sleeps : List Nat
  calls : Nat
deriving DecidableEq

/-- The success dictionary built by `resumable_upload` when the terminal
response contains an `id` field. -/
def successDict (videoId : String) : List (String × MVal) :=
  [("success", MVal.bool true),
   ("video_id", MVal.str videoId),
   ("url", MVal.str ("https://www.youtube.com/watch?v=" ++ videoId))]

/-- The failure dictionary `{"success": False, "error": error}`. -/
def failureDict (error : String) : List (String × MVal) :=
  [("success", MVal.bool false), ("error", MVal.str error)]

/-- Approximate rendering of a Python dict inside an f-string; no claim
depends on its exact text. -/
def pyReprPairs (resp : List (String × String)) : String :=
  "\x7b" ++ String.intercalate ", " (resp.map (fun p => p.1 ++ ": " ++ p.2)) ++ "\x7d"

/-- The transient error message `f"HTTP error {e.resp.status}: {e.content}"`. -/
def transientErrorMsg (status : Nat) (content : String) : String :=
  "HTTP error " ++ toString status ++ ": " ++ content

/-- What `resumable_upload` returns once `next_chunk` yields a non-None
response: success with video id and url when `'id' in response`, otherwise
the unexpected-response failure. -/
def terminalResult (resp : List (String × String)) : List (String × MVal) :=
  match resp.lookup "id" with
  | some v => successDict v
  | none => failureDict ("Upload failed with unexpected response: " ++ pyReprPairs resp)

/-- The retried HTTP statuses, `[500, 502, 503, 504]`. -/
def transientStatuses : List Nat := [500, 502, 503, 504]

/-- Embedding of `resumable_upload` (src/youtube_uploader.py): the retry
counter starts at 0 and is threaded through the loop; on a transient
`HttpError` it is incremented, and the loop either gives up (counter
exceeds 3) or sleeps `5 * retry` and calls `next_chunk` again — the
client library resumes from the last acknowledged offset, i.e. the same
chunk is retried.  The second argument is the current value of `retry`. -/
def resumable_upload : List ChunkEvent → Nat → RunOut
  | [], _ => ⟨none, [], 0⟩
  | ChunkEvent.progress :: rest, retry =>
      let o := resumable_upload rest retry
      ⟨o.result, o.sleeps, o.calls + 1⟩
  | ChunkEvent.final resp :: _, _ => ⟨some (terminalResult resp), [], 1⟩
  | ChunkEvent.httpErr status content strE :: rest, retry =>
      if status ∈ transientStatuses then
        if retry + 1 > 3 then
          ⟨some (failureDict (transientErrorMsg status content)), [], 1⟩
        else
          let o := resumable_upload rest (retry + 1)
          ⟨o.result, 5 * (retry + 1) :: o.sleeps, o.calls + 1⟩
      else ⟨some (failureDict strE), [], 1⟩
  | ChunkEvent.exn msg :: _, _ => ⟨some (failureDict msg), [], 1⟩

/-- Modelled from the spec: the variant of the retry loop that the spec
describes, in which the retry budget is per chunk — the retry counter is
reset to 0 after every successfully acknowledged chunk.  Defined only to
compare the spec policy with the code; the code (`resumable_upload`
above) never resets the counter. -/
def resumable_upload_specPerChunk : List ChunkEvent → Nat → RunOut
  | [], _ => ⟨none, [], 0⟩
  | ChunkEvent.progress :: rest, _ =>
      let o := resumable_upload_specPerChunk rest 0
      ⟨o.result, o.sleeps, o.calls + 1⟩
  | ChunkEvent.final resp :: _, _ => ⟨some (terminalResult resp), [], 1⟩
  | ChunkEvent.httpErr status content strE :: rest, retry =>
      if status ∈ transientStatuses then
        if retry + 1 > 3 then
          ⟨some (failureDict (transientErrorMsg status content)), [], 1⟩
        else
          let o := resumable_upload_specPerChunk rest (retry + 1)
          ⟨o.result, 5 * (retry + 1) :: o.sleeps, o.calls + 1⟩
      else ⟨some (failureDict strE), [], 1⟩
  | ChunkEvent.exn msg :: _, _ => ⟨some (failureDict msg), [], 1⟩

/-- The shape every dictionary returned by the upload loop must have:
a `success` flag, with `video_id` and `url` present on success and an
`error` description present on failure. -/
def resultShapeOK (d : List (String × MVal)) : Prop :=
  (d.lookup "success" = some (MVal.bool true) ∧
    (∃ v, d.lookup "video_id" = some (MVal.str v)) ∧
    (∃ u, d.lookup "url" = some (MVal.str u))) ∨
  (d.lookup "success" = some (MVal.bool false) ∧
    ∃ m, d.lookup "error" = some (MVal.str m))

/-- The per-invocation upload options dictionary assembled by the
`upload_video` tool / CLI `main`. -/
structure UploadOptions where
  file : String
  title : String
  description : String
  keywords : String
  category : String
  privacy_status : String
  made_for_kids : Bool
deriving DecidableEq

/-- Python `keywords.split(",")`: split the character sequence on every
comma, keeping empty segments and preserving order. -/
def pySplitComma (kw : String) : List String :=
  (kw.data.splitOn ',').map (fun cs => String.mk cs)

/-- The `tags` variable of `initialize_upload`: `None` unless the keyword
string is truthy (non-empty), in which case it is the comma-split. -/
def tagsOf (keywords : String) : Option (List String) :=
  if keywords = "" then none else some (pySplitComma keywords)

/-- The value stored under the `tags` key of the snippet dictionary;
Python `None` becomes JSON `null`. -/
def tagsVal (keywords : String) : MVal :=
  match tagsOf keywords with
  | none => MVal.null
  | some l => MVal.strList l

/-- The `snippet` part of the metadata body built by `initialize_upload`.
Note the `tags` key is always present (possibly with value null). -/
def bodySnippet (o : UploadOptions) : List (String × MVal) :=
  [("title", MVal.str o.title),
   ("description", MVal.str o.description),
   ("tags", tagsVal o.keywords),
   ("categoryId", MVal.str o.category)]

/-- The `status` part of the metadata body built by `initialize_upload`. -/
def bodyStatus (o : UploadOptions) : List (String × MVal) :=
  [("privacyStatus", MVal.str o.privacy_status),
   ("selfDeclaredMadeForKids", MVal.bool o.made_for_kids)]

/-- Embedding of `initialize_upload`: the metadata body is built (pure),
then the existence of the local file is checked — if the file is missing a
`FileNotFoundError` is raised before the media object or insert request is
created, so before any chunk is sent; otherwise the resumable upload loop
runs against the service (modelled by the chunk-outcome trace). -/
def initialize_upload (o : UploadOptions) (fileExists : Bool)
    (trace : List ChunkEvent) : Except String RunOut :=
  if fileExists = false then
    Except.error ("Video file not found: " ++ o.file)
  else
    Except.ok (resumable_upload trace 0)

/-- Number of network round-trips performed by an `initialize_upload`
outcome: the `next_chunk` calls of the loop, none if the call raised
before reaching the loop. -/
def uploadNetworkCalls (r : Except String RunOut) : Nat :=
  match r with
  | Except.error _ => 0
  | Except.ok out => out.calls

/-- The fields of a loaded user token that `get_authenticated_service`
inspects: `creds.valid`, `creds.expired`, and the truthiness of
`creds.refresh_token`. -/
structure Creds where
  valid : Bool
  expired : Bool
  has_refresh_token : Bool
deriving DecidableEq

/-- The persisted state the authenticator reads and writes: the token file
(absent, or parsed to a `Creds`) and whether the credentials file exists. -/
structure FSState where
  tokenFile : Option Creds
  credFile : Bool
deriving DecidableEq

/-- Observable side effects of the authentication code paths: the token
refresh network call, running the local OAuth callback server (interactive
authorization) on a given host and port, writing the token file, and an
authenticated API call. -/
inductive AuthEvent where
  | refreshToken : AuthEvent
  | runLocalServer (host : String) (port : Nat) : AuthEvent
  | writeTokenFile (c : Creds) : AuthEvent
  | apiCall (endpoint : String) : AuthEvent
deriving DecidableEq

/-- The credentials produced by a completed interactive flow: valid, not
expired, carrying a refresh token. -/
def flowCreds : Creds := ⟨true, false, true⟩

/-- The result of `creds.refresh(Request())` on success: the token becomes
valid and unexpired in place. -/
def refreshedCreds (c : Creds) : Creds := { c with valid := true, expired := false }

/-- The message of the exception raised when the credentials file is
missing (the original interpolates the absolute path of the file). -/
def missingCredMsg : String :=
  "Missing credentials.json. Please download OAuth2 credentials from Google Cloud Console."

/-- Embedding of `get_authenticated_service` (src/youtube_uploader.py):
loads the token file if present; a valid token is used as is (no side
effects); an expired token with a refresh token is silently refreshed and
the token file rewritten; otherwise the interactive flow is run with
`flow.run_local_server(port=0)` — an OS-assigned ephemeral port on the
default host `localhost` — provided the credentials file exists, and the
obtained token is written; with no credentials file an exception is
raised.  Returns the credential, the updated filesystem state, and the
event trace. -/
def get_authenticated_service (st : FSState) :
    Except String (Creds × FSState × List AuthEvent) :=
  match st.tokenFile with
  | some c =>
      if c.valid then Except.ok (c, st, [])
      else if c.expired && c.has_refresh_token then
        Except.ok (refreshedCreds c, { st with tokenFile := some (refreshedCreds c) },
          [AuthEvent.refreshToken, AuthEvent.writeTokenFile (refreshedCreds c)])
      else if st.credFile then
        Except.ok (flowCreds, { st with tokenFile := some flowCreds },
          [AuthEvent.runLocalServer "localhost" 0, AuthEvent.writeTokenFile flowCreds])
      else Except.error missingCredMsg
  | none =>
      if st.credFile then
        Except.ok (flowCreds, { st with tokenFile := some flowCreds },
          [AuthEvent.runLocalServer "localhost" 0, AuthEvent.writeTokenFile flowCreds])
      else Except.error missingCredMsg

/-- The success message of `check_upload_quota` (text abbreviated; no
claim depends on it). -/
def quotaOkMsg (title subs vids : String) : String :=
  "YouTube API Status: Authentication successful. Channel: " ++ title ++
    " Subscribers: " ++ subs ++ " Videos: " ++ vids

/-- Embedding of the `check_upload_quota` tool: authenticate via
`get_authenticated_service`, make one `channels().list(mine=True)` call,
and report; every exception is converted to an error string.
`chanHasItems` and the strings stand for the external API response. -/
def check_upload_quota (st : FSState) (chanHasItems : Bool)
    (title subs vids : String) : String × FSState × List AuthEvent :=
  match get_authenticated_service st with
  | Except.error e => ("Error checking quota: " ++ e, st, [])
  | Except.ok (_, st2, evs) =>
      if chanHasItems then
        (quotaOkMsg title subs vids, st2, evs ++ [AuthEvent.apiCall "channels.list"])
      else
        ("Authentication successful but no channel found.", st2,
          evs ++ [AuthEvent.apiCall "channels.list"])

/-- The no-credentials message of `authorize_youtube_access` (abbreviated). -/
def noCredSetupMsg : String :=
  "OAuth2 client credentials not found. Please set up OAuth2 credentials first using setup_youtube_auth."

/-- The already-authenticated message of `authorize_youtube_access`
(abbreviated). -/
def alreadyAuthMsg (title : String) : String :=
  "Already authenticated! YouTube Channel: " ++ title

/-- The post-flow success message of `authorize_youtube_access`
(abbreviated). -/
def authSuccessMsg (title subs vids : String) : String :=
  "Authorization successful! YouTube Channel: " ++ title ++
    " Subscribers: " ++ subs ++ " Videos: " ++ vids

/-- The post-flow no-channel message of `authorize_youtube_access`
(abbreviated). -/
def authNoChannelMsg : String :=
  "Authorization completed but no YouTube channel found."

/-- The OAuth flow section of `authorize_youtube_access`:
`flow.run_local_server(port=8080, host=localhost, ...)`, write the token
file, then verify with a `channels().list` call.  `pre` holds events
already performed before reaching the flow. -/
def authFlow (st : FSState) (pre : List AuthEvent) (flowHasItems : Bool)
    (title subs vids : String) : String × FSState × List AuthEvent :=
  let evs := pre ++ [AuthEvent.runLocalServer "localhost" 8080,
    AuthEvent.writeTokenFile flowCreds, AuthEvent.apiCall "channels.list"]
  if flowHasItems then
    (authSuccessMsg title subs vids, { st with tokenFile := some flowCreds }, evs)
  else
    (authNoChannelMsg, { st with tokenFile := some flowCreds }, evs)

/-- Embedding of the `authorize_youtube_access` tool: without a
credentials file it returns an instruction message; with a cached valid
token it tests it with one API call and, if a channel is found, reports
already-authenticated; otherwise (no token, invalid token, or no channel
found by the test) it runs the interactive flow on `localhost:8080`,
persists the token, and verifies.  `testHasItems` / `flowHasItems` stand
for the external API responses. -/
def authorize_youtube_access (st : FSState) (testHasItems flowHasItems : Bool)
    (title subs vids : String) : String × FSState × List AuthEvent :=
  if st.credFile = false then (noCredSetupMsg, st, [])
  else
    match st.tokenFile with
    | some c =>
        if c.valid then
          if testHasItems then
            (alreadyAuthMsg title, st, [AuthEvent.apiCall "channels.list"])
          else
            authFlow st [AuthEvent.apiCall "channels.list"] flowHasItems title subs vids
        else authFlow st [] flowHasItems title subs vids
    | none => authFlow st [] flowHasItems title subs vids

/-- The name of the credentials file (the original prefixes the script
directory). -/
def CREDENTIALS_FILE : String := "credentials.json"

/-- The content of the `installed` block written by `setup_youtube_auth`. -/
structure InstalledCred where
  client_id : String
  client_secret : String
  project_id : String
  auth_uri : String
  token_uri : String
  auth_provider_x509_cert_url : String
  redirect_uris : List String
deriving DecidableEq

/-- Embedding of the `setup_youtube_auth` tool: build the credentials
dictionary from the three inputs plus the fixed Google endpoints and write
it to the credentials file; any write exception is converted to an error
string and leaves the previous file content.  `writeOk` stands for the
success of the filesystem write and `writeErr` for the exception text; the
second component of the result is the credential-file content afterwards
and the third is the (empty) network event trace. -/
def setup_youtube_auth (client_id client_secret project_id : String)
    (writeOk : Bool) (credFileContent : Option InstalledCred) (writeErr : String) :
    String × Option InstalledCred × List AuthEvent :=
  let creds : InstalledCred :=
    ⟨client_id, client_secret, project_id,
     "https://accounts.google.com/o/oauth2/auth",
     "https://oauth2.googleapis.com/token",
     "https://www.googleapis.com/oauth2/v1/certs",
     ["http://localhost"]⟩
  if writeOk then
    ("Credentials saved to " ++ CREDENTIALS_FILE ++ ". Run upload_video to authenticate.",
     some creds, [])
  else
    ("Error setting up credentials: " ++ writeErr, credFileContent, [])

/-- C1: on a chunk failure with HTTP status in 500/502/503/504,
`resumable_upload` increments the retry counter; while the incremented
counter has not exceeded 3 it sleeps `5 * retry` time units (hence 5, 10,
15 for the first, second, third retry) and re-enters the loop on the same
upload session with the incremented counter (retrying the same chunk);
as soon as the counter exceeds 3 it returns the failure dictionary
carrying the transient error description, consuming no further chunk. -/
theorem C1_transient_retry_backoff (status : Nat) (content strE : String)
    (rest : List ChunkEvent) (retry : Nat) (hs : status ∈ transientStatuses) :
    (retry + 1 ≤ 3 →
      resumable_upload (ChunkEvent.httpErr status content strE :: rest) retry =
        ⟨(resumable_upload rest (retry + 1)).result,
         5 * (retry + 1) :: (resumable_upload rest (retry + 1)).sleeps,
         (resumable_upload rest (retry + 1)).calls + 1⟩) ∧
    (retry + 1 > 3 →
      resumable_upload (ChunkEvent.httpErr status content strE :: rest) retry =
        ⟨some (failureDict (transientErrorMsg status content)), [], 1⟩) := by
  constructor
  · intro h
    simp only [resumable_upload, if_pos hs, if_neg (Nat.not_lt.mpr h)]
  · intro h
    simp only [resumable_upload, if_pos hs, if_pos h]

/-- Witness for C1: three consecutive 503 responses followed by a
successful terminal response produce exactly the backoff delays 5, 10, 15
and then success. -/
theorem C1_witness :
    resumable_upload
      [ChunkEvent.httpErr 503 "c1" "E1", ChunkEvent.httpErr 503 "c2" "E2",
       ChunkEvent.httpErr 503 "c3" "E3", ChunkEvent.final [("id", "abc")]] 0 =
      ⟨some (successDict "abc"), [5, 10, 15], 4⟩ := by
  have h1 := (C1_transient_retry_backoff 503 "c1" "E1"
    [ChunkEvent.httpErr 503 "c2" "E2", ChunkEvent.httpErr 503 "c3" "E3",
     ChunkEvent.final [("id", "abc")]] 0 (by decide)).1 (by decide)
  have h2 := (C1_transient_retry_backoff 503 "c2" "E2"
    [ChunkEvent.httpErr 503 "c3" "E3", ChunkEvent.final [("id", "abc")]] 1 (by decide)).1 (by decide)
  have h3 := (C1_transient_retry_backoff 503 "c3" "E3"
    [ChunkEvent.final [("id", "abc")]] 2 (by decide)).1 (by decide)
  rw [h1, h2, h3]
  rfl

/-- C3: on a chunk failure with any HTTP status outside 500/502/503/504,
and likewise on any other (transport-level) exception, the loop returns
the failure dictionary immediately: no retry (the remaining trace is not
consumed, exactly one `next_chunk` call was made) and no backoff sleep. -/
theorem C3_nontransient_immediate :
    (∀ (status : Nat) (content strE : String) (rest : List ChunkEvent) (retry : Nat),
      status ∉ transientStatuses →
      resumable_upload (ChunkEvent.httpErr status content strE :: rest) retry =
        ⟨some (failureDict strE), [], 1⟩) ∧
    (∀ (msg : String) (rest : List ChunkEvent) (retry : Nat),
      resumable_upload (ChunkEvent.exn msg :: rest) retry =
        ⟨some (failureDict msg), [], 1⟩) := by
  constructor
  · intro status content strE rest retry hs
    simp only [resumable_upload, if_neg hs]
  · intro msg rest retry
    rfl

/-- Witness for C3: a 403 on the first chunk fails immediately with zero
retries and zero sleeps, and so does a transport-level exception. -/
theorem C3_witness :
    resumable_upload [ChunkEvent.httpErr 403 "forbidden" "E403",
        ChunkEvent.final [("id", "abc")]] 0 =
      ⟨some (failureDict "E403"), [], 1⟩ ∧
    resumable_upload [ChunkEvent.exn "socket closed"] 2 =
      ⟨some (failureDict "socket closed"), [], 1⟩ :=
  ⟨C3_nontransient_immediate.1 403 "forbidden" "E403"
      [ChunkEvent.final [("id", "abc")]] 0 (by decide),
   C3_nontransient_immediate.2 "socket closed" [] 2⟩

/-- C7: a terminal service response containing an `id` field with value v
yields the success dictionary with `video_id = v` and `url` exactly
`https://www.youtube.com/watch?v=` followed by v; a terminal response
lacking the `id` field yields a failure dictionary, not a success. -/
theorem C7_terminal_response (resp : List (String × String))
    (rest : List ChunkEvent) (retry : Nat) :
    (∀ v, resp.lookup "id" = some v →
      resumable_upload (ChunkEvent.final resp :: rest) retry =
          ⟨some (successDict v), [], 1⟩ ∧
        (successDict v).lookup "video_id" = some (MVal.str v) ∧
        (successDict v).lookup "url" =
          some (MVal.str ("https://www.youtube.com/watch?v=" ++ v)) ∧
        (successDict v).lookup "success" = some (MVal.bool true)) ∧
    (resp.lookup "id" = none →
      resumable_upload (ChunkEvent.final resp :: rest) retry =
          ⟨some (failureDict
            ("Upload failed with unexpected response: " ++ pyReprPairs resp)), [], 1⟩ ∧
        (failureDict
            ("Upload failed with unexpected response: " ++ pyReprPairs resp)).lookup
          "success" = some (MVal.bool false)) := by
  constructor
  · intro v hv
    refine ⟨?_, rfl, rfl, rfl⟩
    simp only [resumable_upload, terminalResult, hv]
  · intro hv
    refine ⟨?_, rfl⟩
    simp only [resumable_upload, terminalResult, hv]

/-- Witness for C7: a terminal response with id abc123 yields the url
`https://www.youtube.com/watch?v=abc123` exactly, and a terminal response
without an id yields a failure. -/
theorem C7_witness :
    resumable_upload [ChunkEvent.final [("id", "abc123")]] 0 =
        ⟨some (successDict "abc123"), [], 1⟩ ∧
    (successDict "abc123").lookup "url" =
        some (MVal.str "https://www.youtube.com/watch?v=abc123") ∧
    (resumable_upload [ChunkEvent.final [("kind", "youtube#video")]] 0).result =
        some (failureDict ("Upload failed with unexpected response: " ++
          pyReprPairs [("kind", "youtube#video")])) := by
  have h := (C7_terminal_response [("id", "abc123")] [] 0).1 "abc123" rfl
  have h2 := (C7_terminal_response [("kind", "youtube#video")] [] 0).2 rfl
  refine ⟨h.1, ?_, by rw [h2.1]⟩
  rw [h.2.2.1]
  rfl

/-- An upload trace for the retry-budget comparison: two 503s on the
first chunk, a successfully acknowledged chunk, two 503s on the next
chunk, then a successful terminal response — no chunk suffers more than
two consecutive transient failures. -/
def retryBudgetTrace : List ChunkEvent :=
  [ChunkEvent.httpErr 503 "c1" "E1", ChunkEvent.httpErr 503 "c2" "E2",
   ChunkEvent.progress,
   ChunkEvent.httpErr 503 "c3" "E3", ChunkEvent.httpErr 503 "c4" "E4",
   ChunkEvent.final [("id", "ok")]]

/-- Counterexample to C2: on a trace in which no individual chunk sees
more than 2 transient failures (within the claimed fresh per-chunk budget
of 3), the code fails the upload after its fourth transient failure
overall, while the per-chunk-budget loop described by the spec would
succeed — the retry count is not applied afresh after an acknowledged
chunk. -/
theorem C2_counterexample :
    resumable_upload retryBudgetTrace 0 =
      ⟨some (failureDict (transientErrorMsg 503 "c4")), [5, 10, 15], 5⟩ ∧
    (resumable_upload retryBudgetTrace 0).result.map (fun d => d.lookup "success") =
      some (some (MVal.bool false)) ∧
    (resumable_upload_specPerChunk retryBudgetTrace 0).result.map
        (fun d => d.lookup "success") =
      some (some (MVal.bool true)) := by
  refine ⟨rfl, ?_, ?_⟩ <;> rfl

/-- The number of backoff sleeps the loop can still perform is bounded by
what remains of the single global retry budget. -/
theorem sleeps_budget_aux (trace : List ChunkEvent) (retry : Nat) (h : retry ≤ 3) :
    (resumable_upload trace retry).sleeps.length + retry ≤ 3 := by
  induction trace generalizing retry with
  | nil => simpa [resumable_upload] using h
  | cons e rest ih =>
      cases e with
      | progress => simpa [resumable_upload] using ih retry h
      | final resp => simpa [resumable_upload] using h
      | exn msg => simpa [resumable_upload] using h
      | httpErr status content strE =>
          by_cases hs : status ∈ transientStatuses
          · by_cases hr : retry + 1 > 3
            · simp only [resumable_upload, if_pos hs, if_pos hr]
              simpa using h
            · have hr2 : retry + 1 ≤ 3 := Nat.not_lt.mp hr
              have := ih (retry + 1) hr2
              simp only [resumable_upload, if_pos hs, if_neg hr]
              simp only [List.length_cons]
              omega
          · simp only [resumable_upload, if_neg hs]
            simpa using h

/-- C2 amended: the transient-failure retry budget is global to one
upload, not per chunk: a successfully acknowledged chunk passes the retry
counter through unchanged (no reset), and consequently at most 3 backoff
retries are performed over the whole file in total. -/
theorem C2_amended_global_budget :
    (∀ (rest : List ChunkEvent) (retry : Nat),
      resumable_upload (ChunkEvent.progress :: rest) retry =
        ⟨(resumable_upload rest retry).result,
         (resumable_upload rest retry).sleeps,
         (resumable_upload rest retry).calls + 1⟩) ∧
    (∀ trace : List ChunkEvent, (resumable_upload trace 0).sleeps.length ≤ 3) := by
  constructor
  · intro rest retry
    rfl
  · intro trace
    simpa using sleeps_budget_aux trace 0 (by decide)

/-- C10: every dictionary produced by the resumable upload loop carries a
`success` flag; when true it also carries `video_id` and `url`, and when
false it carries an `error` description — no other shape occurs. -/
theorem C10_result_shape (trace : List ChunkEvent) (retry : Nat)
    (d : List (String × MVal))
    (h : (resumable_upload trace retry).result = some d) : resultShapeOK d := by
  induction trace generalizing retry with
  | nil => simp [resumable_upload] at h
  | cons e rest ih =>
      cases e with
      | progress =>
          simp only [resumable_upload] at h
          exact ih retry h
      | final resp =>
          simp only [resumable_upload, Option.some.injEq] at h
          subst h
          unfold terminalResult
          cases hl : resp.lookup "id" with
          | some v =>
              exact Or.inl ⟨rfl, ⟨v, rfl⟩, ⟨"https://www.youtube.com/watch?v=" ++ v, rfl⟩⟩
          | none =>
              exact Or.inr ⟨rfl,
                ⟨"Upload failed with unexpected response: " ++ pyReprPairs resp, rfl⟩⟩
      | exn msg =>
          simp only [resumable_upload, Option.some.injEq] at h
          subst h
          exact Or.inr ⟨rfl, ⟨msg, rfl⟩⟩
      | httpErr status content strE =>
          by_cases hs : status ∈ transientStatuses
          · by_cases hr : retry + 1 > 3
            · simp only [resumable_upload, if_pos hs, if_pos hr,
                Option.some.injEq] at h
              subst h
              exact Or.inr ⟨rfl, ⟨transientErrorMsg status content, rfl⟩⟩
            · simp only [resumable_upload, if_pos hs, if_neg hr] at h
              exact ih (retry + 1) h
          · simp only [resumable_upload, if_neg hs, Option.some.injEq] at h
            subst h
            exact Or.inr ⟨rfl, ⟨strE, rfl⟩⟩

/-- Witness for C10: the dictionary returned on a transport-level
exception satisfies the result-shape invariant. -/
theorem C10_witness : resultShapeOK (failureDict "socket closed twice") :=
  C10_result_shape [ChunkEvent.exn "socket closed twice"] 0
    (failureDict "socket closed twice") rfl

/-- Counterexample to C5: the keyword string `a,,b` contains a comma, yet
the derived tag sequence (`"a,,b".split(",")`) has length 3 while the
number of comma-separated non-empty segments is 2 — empty segments are
kept; moreover with no keywords the `tags` key of the snippet is present
with a null value rather than omitted. -/
theorem C5_counterexample :
    ',' ∈ "a,,b".data ∧
    tagsOf "a,,b" = some ["a", "", "b"] ∧
    (pySplitComma "a,,b").length = 3 ∧
    ((pySplitComma "a,,b").filter (fun t => t ≠ "")).length = 2 ∧
    (bodySnippet ⟨"v.mp4", "T", "D", "", "22", "private", false⟩).lookup "tags" =
      some MVal.null := by
  refine ⟨by decide, ?_, rfl, ?_, rfl⟩ <;> decide

/-- Splitting on a predicate yields one more segment than the number of
separators matched. -/
theorem length_splitOnP_count {α : Type} (p : α → Bool) (xs : List α) :
    (xs.splitOnP p).length = xs.countP p + 1 := by
  induction xs with
  | nil => simp [List.splitOnP_nil]
  | cons x xs ih =>
      rw [List.splitOnP_cons, List.countP_cons]
      by_cases h : p x
      · simp [h, ih]
      · simp [h, List.length_modifyHead, ih]

/-- C5 amended: for every non-empty keyword string the tag sequence is the
comma-split keeping empty segments, order-preserving — interleaving the
tags with commas reconstructs the keyword string exactly, and the number
of tags is the number of commas plus one (the number of comma-separated
segments, empty ones included); when no keywords are given, the `tags`
field is present in the snippet with a null value rather than omitted. -/
theorem C5_amended_tags (kw : String) (hk : kw ≠ "") (o : UploadOptions) :
    (tagsOf kw = some (pySplitComma kw) ∧
      [','].intercalate ((pySplitComma kw).map String.data) = kw.data ∧
      (pySplitComma kw).length = kw.data.count ',' + 1) ∧
    (o.keywords = "" → (bodySnippet o).lookup "tags" = some MVal.null) := by
  constructor
  · refine ⟨by simp [tagsOf, hk], ?_, ?_⟩
    · have hmap : ∀ l : List (List Char),
          (l.map (fun cs => String.mk cs)).map String.data = l := by
        intro l
        induction l with
        | nil => rfl
        | cons a t ih => simp [ih]
      unfold pySplitComma
      rw [hmap]
      exact List.intercalate_splitOn _ ','
    · have h2 : (kw.data.splitOn ',').length = kw.data.countP (· == ',') + 1 :=
        length_splitOnP_count (· == ',') kw.data
      simpa [pySplitComma, List.count_eq_countP] using h2
  · intro hkw
    unfold bodySnippet
    rw [hkw]
    rfl

/-- Witness for C5 amended: the keyword string `tag1,tag2,tag3` yields the
three tags in order, reassembling to the input, and an options record with
empty keywords carries a null `tags` field. -/
theorem C5_amended_witness :
    tagsOf "tag1,tag2,tag3" = some (pySplitComma "tag1,tag2,tag3") ∧
    [','].intercalate ((pySplitComma "tag1,tag2,tag3").map String.data) =
      "tag1,tag2,tag3".data ∧
    (pySplitComma "tag1,tag2,tag3").length = "tag1,tag2,tag3".data.count ',' + 1 ∧
    (bodySnippet ⟨"v.mp4", "T", "D", "", "22", "private", false⟩).lookup "tags" =
      some MVal.null := by
  have h := C5_amended_tags "tag1,tag2,tag3" (by decide)
    ⟨"v.mp4", "T", "D", "", "22", "private", false⟩
  exact ⟨h.1.1, h.1.2.1, h.1.2.2, h.2 rfl⟩

/-- C6: for every upload request naming a file that does not exist,
`initialize_upload` fails with the file-not-found error before the upload
loop is entered: whatever the service would have answered, the result is
the error and the number of network round-trips performed is zero. -/
theorem C6_missing_file (o : UploadOptions) (trace : List ChunkEvent) :
    initialize_upload o false trace =
      Except.error ("Video file not found: " ++ o.file) ∧
    uploadNetworkCalls (initialize_upload o false trace) = 0 :=
  ⟨rfl, rfl⟩

/-- Counterexample to C4: starting from a token file that is present but
expired (with a refresh token), `check_upload_quota` refreshes the token
and rewrites the token file — the persisted state changes; and starting
with no token file but an existing credentials file, it initiates the
interactive authorization flow instead of reporting not-authenticated. -/
theorem C4_counterexample :
    AuthEvent.writeTokenFile (refreshedCreds ⟨false, true, true⟩) ∈
      (check_upload_quota ⟨some ⟨false, true, true⟩, true⟩ true "T" "S" "V").2.2 ∧
    (check_upload_quota ⟨some ⟨false, true, true⟩, true⟩ true "T" "S" "V").2.1 ≠
      (⟨some ⟨false, true, true⟩, true⟩ : FSState) ∧
    AuthEvent.runLocalServer "localhost" 0 ∈
      (check_upload_quota ⟨none, true⟩ true "T" "S" "V").2.2 := by
  refine ⟨?_, ?_, ?_⟩ <;> decide

/-- C4 amended: `check_upload_quota` leaves the persisted state untouched
and runs no interactive flow only when the cached token is already valid;
when the cached token is expired and carries a refresh token it silently
refreshes it and rewrites the token file; when no usable token exists it
initiates the interactive authorization flow provided the app-credential
file is present, and only when that file is also absent does it report an
error without acquiring a token, leaving the state unchanged. -/
theorem C4_amended_quota_auth (st : FSState) (hasItems : Bool) (t s v : String) :
    (∀ c, st.tokenFile = some c → c.valid = true →
      (check_upload_quota st hasItems t s v).2.1 = st ∧
      (check_upload_quota st hasItems t s v).2.2 = [AuthEvent.apiCall "channels.list"]) ∧
    (∀ c, st.tokenFile = some c → c.valid = false → c.expired = true →
      c.has_refresh_token = true →
      AuthEvent.writeTokenFile (refreshedCreds c) ∈
        (check_upload_quota st hasItems t s v).2.2) ∧
    (st.tokenFile = none → st.credFile = true →
      AuthEvent.runLocalServer "localhost" 0 ∈
        (check_upload_quota st hasItems t s v).2.2) ∧
    (st.tokenFile = none → st.credFile = false →
      check_upload_quota st hasItems t s v =
        ("Error checking quota: " ++ missingCredMsg, st, [])) := by
  refine ⟨?_, ?_, ?_, ?_⟩
  · intro c hc hv
    simp only [check_upload_quota, get_authenticated_service, hc, hv, if_pos]
    cases hasItems <;> simp
  · intro c hc hv he hr
    simp only [check_upload_quota, get_authenticated_service, hc, hv, he, hr,
      Bool.false_eq_true, if_false, Bool.and_self, if_pos]
    cases hasItems <;> simp
  · intro hc hf
    simp only [check_upload_quota, get_authenticated_service, hc, hf, if_pos]
    cases hasItems <;> simp
  · intro hc hf
    simp only [check_upload_quota, get_authenticated_service, hc, hf,
      Bool.false_eq_true, if_false]

/-- Witness for C4 amended: with a valid cached token the state is
untouched and only the channel call happens; with no token and a
credentials file present, the interactive flow is initiated; with neither
file, an error string is reported. -/
theorem C4_witness :
    (check_upload_quota ⟨some ⟨true, false, false⟩, true⟩ true "T" "S" "V").2.1 =
      (⟨some ⟨true, false, false⟩, true⟩ : FSState) ∧
    AuthEvent.runLocalServer "localhost" 0 ∈
      (check_upload_quota ⟨none, true⟩ false "T" "S" "V").2.2 ∧
    check_upload_quota ⟨none, false⟩ true "T" "S" "V" =
      ("Error checking quota: " ++ missingCredMsg, ⟨none, false⟩, []) := by
  refine ⟨?_, ?_, ?_⟩
  · exact ((C4_amended_quota_auth ⟨some ⟨true, false, false⟩, true⟩ true "T" "S" "V").1
      ⟨true, false, false⟩ rfl rfl).1
  · exact (C4_amended_quota_auth ⟨none, true⟩ false "T" "S" "V").2.2.1 rfl rfl
  · exact (C4_amended_quota_auth ⟨none, false⟩ true "T" "S" "V").2.2.2 rfl rfl

/-- C8: `setup_youtube_auth` performs no network call, succeeds whenever
the filesystem write succeeds, and the credential file it writes contains
exactly the three given inputs together with the fixed well-known Google
authorization and token endpoints; when the write fails the previous file
content is untouched and an error string is returned. -/
theorem C8_setup_roundtrip (ci cs pj : String) (fs : Option InstalledCred)
    (we : String) :
    (setup_youtube_auth ci cs pj true fs we).2.1 =
      some ⟨ci, cs, pj,
        "https://accounts.google.com/o/oauth2/auth",
        "https://oauth2.googleapis.com/token",
        "https://www.googleapis.com/oauth2/v1/certs",
        ["http://localhost"]⟩ ∧
    (setup_youtube_auth ci cs pj true fs we).2.2 = [] ∧
    (setup_youtube_auth ci cs pj true fs we).1 =
      "Credentials saved to " ++ CREDENTIALS_FILE ++ ". Run upload_video to authenticate." ∧
    (setup_youtube_auth ci cs pj false fs we).2.1 = fs ∧
    (setup_youtube_auth ci cs pj false fs we).2.2 = [] :=
  ⟨rfl, rfl, rfl, rfl, rfl⟩

/-- Counterexample to C9: with no cached token and a credentials file
present, `get_authenticated_service` — a code path that initiates
interactive authorization (it is the path taken by `upload_video`,
`check_upload_quota` and `list_video_categories`) — runs the local OAuth
callback server with port 0 (an OS-assigned ephemeral port), not the
fixed port 8080. -/
theorem C9_counterexample :
    get_authenticated_service ⟨none, true⟩ =
      Except.ok (flowCreds, ⟨some flowCreds, true⟩,
        [AuthEvent.runLocalServer "localhost" 0,
         AuthEvent.writeTokenFile flowCreds]) ∧
    AuthEvent.runLocalServer "localhost" 8080 ∉
      [AuthEvent.runLocalServer "localhost" 0,
       AuthEvent.writeTokenFile flowCreds] ∧
    (0 : Nat) ≠ 8080 := by
  refine ⟨rfl, ?_, ?_⟩ <;> decide

/-- C9 amended: only the `authorize_youtube_access` tool binds the local
OAuth callback listener to the fixed `localhost:8080`; the interactive
flow reachable through `get_authenticated_service` (used by the other
tools and the CLI) requests port 0, i.e. an OS-assigned ephemeral port on
`localhost`. -/
theorem C9_amended_ports (st : FSState) (ti fi : Bool) (t s v : String)
    (hc : st.credFile = true) (ht : st.tokenFile = none) :
    (authorize_youtube_access st ti fi t s v).2.2 =
      [AuthEvent.runLocalServer "localhost" 8080,
       AuthEvent.writeTokenFile flowCreds,
       AuthEvent.apiCall "channels.list"] ∧
    get_authenticated_service st =
      Except.ok (flowCreds, { st with tokenFile := some flowCreds },
        [AuthEvent.runLocalServer "localhost" 0,
         AuthEvent.writeTokenFile flowCreds]) := by
  constructor
  · simp only [authorize_youtube_access, hc, ht, Bool.true_eq_false, if_false,
      authFlow, List.nil_append]
    cases fi <;> simp
  · simp only [get_authenticated_service, ht, hc, if_pos]

/-- Witness for C9 amended: from the state with no token file and an
existing credentials file, `authorize_youtube_access` runs the flow on
`localhost:8080` while `get_authenticated_service` runs it on port 0. -/
theorem C9_witness :
    (authorize_youtube_access ⟨none, true⟩ true true "T" "S" "V").2.2 =
      [AuthEvent.runLocalServer "localhost" 8080,
       AuthEvent.writeTokenFile flowCreds,
       AuthEvent.apiCall "channels.list"] ∧
    get_authenticated_service ⟨none, true⟩ =
      Except.ok (flowCreds, ⟨some flowCreds, true⟩,
        [AuthEvent.runLocalServer "localhost" 0,
         AuthEvent.writeTokenFile flowCreds]) :=
  C9_amended_ports ⟨none, true⟩ true true "T" "S" "V" rfl rfl

end YoutubeUploader
